import Mathlib

/-!
Verification of the `libipc_ctypes` channel wrapper
(`src/libipc_ctypes/__init__.py`).

The Python module wraps an external shared-memory transport (`libipc.dll`)
behind an `IPCChannel` class.  The transport itself is out of scope: every
transport call is modelled by passing the transport's response (a status
integer, a returned handle, a filled buffer, a receiver count, ...) as an
explicit argument, and by recording the call in an event trace so that
theorems can speak about which transport calls were made and how often.

Python exceptions are modelled with `Except`; each operation returns the
outcome, the object state at the moment the operation returned or raised,
and the trace of transport calls it performed.
-/

namespace LibIPC

/-- Status codes of `IPCStatus` in the source, as raw integers
(`SUCCESS = 0`, errors are negative), exactly as the Python `IntEnum`. -/
def SUCCESS : Int := 0

/-- Error code `IPCStatus.ERROR_INVALID_ARGUMENT = -1`. -/
def ERROR_INVALID_ARGUMENT : Int := -1

/-- Error code `IPCStatus.ERROR_CONNECTION_FAILED = -2`. -/
def ERROR_CONNECTION_FAILED : Int := -2

/-- Error code `IPCStatus.ERROR_SEND_FAILED = -3`. -/
def ERROR_SEND_FAILED : Int := -3

/-- Error code `IPCStatus.ERROR_RECEIVE_FAILED = -4`. -/
def ERROR_RECEIVE_FAILED : Int := -4

/-- Error code `IPCStatus.ERROR_TIMEOUT = -5`. -/
def ERROR_TIMEOUT : Int := -5

/-- Error code `IPCStatus.ERROR_MEMORY = -6`. -/
def ERROR_MEMORY : Int := -6

/-- Python exceptions the module can raise.  `ipcError c` models
`IPCError(c, ...)` carrying the transport status code `c`; `typeError`
models the `TypeError` raised for non-bytes data; `copyError` models an
exception raised by the byte-copy step (`ctypes.string_at`) inside a
receive operation. -/
inductive PyError where
  | ipcError (status_code : Int)
  | typeError
  | copyError
  deriving Repr, DecidableEq

/-- A value passed as the `data` argument of `send` / `try_send`.
`bytes` and `bytearray` carry their byte content; `other` stands for any
object of a different Python type. -/
inductive PyData where
  | bytes (bs : List Nat)
  | bytearray (bs : List Nat)
  | other
  deriving Repr, DecidableEq

/-- The `IPCBuffer` ctypes structure, reduced to the byte content the
pointer/size pair describes.  The `free_fn`/`ctx` fields are opaque to the
wrapper and are represented by the `bufferFree` event that firing them
produces. -/
structure IPCBuffer where
  data : List Nat
  deriving Repr, DecidableEq

/-- Transport calls performed by the wrapper, recorded in order. -/
inductive Event where
  | createCall
  | connectCall (mode : Int)
  | disconnectCall
  | sendCall
  | trySendCall
  | recvCall
  | tryRecvCall
  | bufferFree
  | destroyCall
  | recvCountCall
  | waitForRecvCall
  deriving Repr, DecidableEq, BEq

/-- The mutable state of an `IPCChannel` object: `handle` is the opaque
transport handle (`none` models Python `None`, the nulled-out handle),
`connected` is the `_connected` flag, `mode` the `ConnMode` passed at
construction (used as the default argument of `connect`). -/
structure ChannelState where
  handle : Option Nat
  connected : Bool
  mode : Int
  deriving Repr, DecidableEq

/-- Python truthiness of a handle value: `not self._handle` is true when the
handle is `None` (and, for completeness, for a zero integer, which is also
falsy in Python). -/
def pyFalsy : Option Nat → Bool
  | none => true
  | some n => n == 0

/-- Result of one wrapper operation: the Python outcome (`Except.error`
models a raised exception), the object state at the moment control left the
method, and the trace of transport calls made. -/
structure OpResult (α : Type) where
  result : Except PyError α
  state : ChannelState
  events : List Event
  deriving Repr

namespace IPCChannel

/-- The `_get_buffer_pointer` helper: accepts `bytes` and `bytearray`
(returning a pointer to their content, modelled by the content itself) and
raises `TypeError` for anything else. -/
def _get_buffer_pointer : PyData → Except PyError (List Nat)
  | .bytes bs => .ok bs
  | .bytearray bs => .ok bs
  | .other => .error .typeError

/-- `IPCChannel.__init__`: the object starts with `_handle = None` and
`_connected = True`, then calls `ipc_channel_create`; a falsy handle raises
`IPCError(ERROR_CONNECTION_FAILED)` leaving the object in that initial
state, otherwise the handle is stored. -/
def init (mode : Int) (createResult : Option Nat) : OpResult Unit :=
  let s0 : ChannelState := { handle := none, connected := true, mode := mode }
  if pyFalsy createResult then
    ⟨.error (.ipcError ERROR_CONNECTION_FAILED), s0, [.createCall]⟩
  else
    ⟨.ok (), { s0 with handle := createResult }, [.createCall]⟩

/-- `IPCChannel.connect`: raises `IPCError(ERROR_INVALID_ARGUMENT)` on a
falsy handle; returns immediately when already connected; otherwise calls
`ipc_channel_connect` with the given mode (defaulting to the constructor
mode), raising the transport status when it is not `SUCCESS` and setting
`_connected` on success. -/
def connect (s : ChannelState) (mode : Option Int) (connectStatus : Int) :
    OpResult Unit :=
  if pyFalsy s.handle then
    ⟨.error (.ipcError ERROR_INVALID_ARGUMENT), s, []⟩
  else if s.connected then
    ⟨.ok (), s, []⟩
  else
    let connect_mode := mode.getD s.mode
    if connectStatus ≠ SUCCESS then
      ⟨.error (.ipcError connectStatus), s, [.connectCall connect_mode]⟩
    else
      ⟨.ok (), { s with connected := true }, [.connectCall connect_mode]⟩

/-- `IPCChannel.disconnect`: returns silently when the handle is falsy or
the channel is not connected; otherwise calls `ipc_channel_disconnect`,
raising the transport status when it is not `SUCCESS` (note: the raise
happens before `_connected` is cleared) and clearing `_connected` on
success. -/
def disconnect (s : ChannelState) (disconnectStatus : Int) : OpResult Unit :=
  if pyFalsy s.handle || !s.connected then
    ⟨.ok (), s, []⟩
  else if disconnectStatus ≠ SUCCESS then
    ⟨.error (.ipcError disconnectStatus), s, [.disconnectCall]⟩
  else
    ⟨.ok (), { s with connected := false }, [.disconnectCall]⟩

/-- `IPCChannel.send`: checks handle, then `_connected`, then the data
type, then obtains the buffer pointer and calls `ipc_channel_send`, raising
the transport status when it is not `SUCCESS`. -/
def send (s : ChannelState) (data : PyData) (timeout_ms : Nat)
    (sendStatus : Int) : OpResult Unit :=
  if pyFalsy s.handle then
    ⟨.error (.ipcError ERROR_INVALID_ARGUMENT), s, []⟩
  else if !s.connected then
    ⟨.error (.ipcError ERROR_CONNECTION_FAILED), s, []⟩
  else if data matches .other then
    ⟨.error .typeError, s, []⟩
  else
    match _get_buffer_pointer data with
    | .error e => ⟨.error e, s, []⟩
    | .ok _ =>
      if sendStatus ≠ SUCCESS then
        ⟨.error (.ipcError sendStatus), s, [.sendCall]⟩
      else
        ⟨.ok (), s, [.sendCall]⟩

/-- `IPCChannel.try_send`: same checks as `send`, then calls
`ipc_channel_try_send`; returns `true` on `SUCCESS`, `false` on
`ERROR_TIMEOUT`, raises any other status. -/
def try_send (s : ChannelState) (data : PyData) (timeout_ms : Nat)
    (sendStatus : Int) : OpResult Bool :=
  if pyFalsy s.handle then
    ⟨.error (.ipcError ERROR_INVALID_ARGUMENT), s, []⟩
  else if !s.connected then
    ⟨.error (.ipcError ERROR_CONNECTION_FAILED), s, []⟩
  else if data matches .other then
    ⟨.error .typeError, s, []⟩
  else
    match _get_buffer_pointer data with
    | .error e => ⟨.error e, s, []⟩
    | .ok _ =>
      if sendStatus = SUCCESS then
        ⟨.ok true, s, [.trySendCall]⟩
      else if sendStatus = ERROR_TIMEOUT then
        ⟨.ok false, s, [.trySendCall]⟩
      else
        ⟨.error (.ipcError sendStatus), s, [.trySendCall]⟩

/-- `IPCChannel.receive`: checks handle and `_connected`, calls
`ipc_channel_recv`, raises a non-`SUCCESS` status; on success it copies the
buffer bytes inside a `try` block and frees the buffer in the `finally`
block, so the copy (`copyFails` models `ctypes.string_at` raising) is
followed by `ipc_buffer_free` on both the normal and the raising path, and
the caller receives only the copied byte list. -/
def receive (s : ChannelState) (timeout_ms : Nat) (recvStatus : Int)
    (buf : IPCBuffer) (copyFails : Bool) : OpResult (List Nat) :=
  if pyFalsy s.handle then
    ⟨.error (.ipcError ERROR_INVALID_ARGUMENT), s, []⟩
  else if !s.connected then
    ⟨.error (.ipcError ERROR_CONNECTION_FAILED), s, []⟩
  else if recvStatus ≠ SUCCESS then
    ⟨.error (.ipcError recvStatus), s, [.recvCall]⟩
  else if copyFails then
    ⟨.error .copyError, s, [.recvCall, .bufferFree]⟩
  else
    ⟨.ok buf.data, s, [.recvCall, .bufferFree]⟩

/-- `IPCChannel.try_receive`: checks handle and `_connected`, calls
`ipc_channel_try_recv`; on `SUCCESS` runs the same copy-in-`try`,
free-in-`finally` pattern as `receive` and returns the copy; on
`ERROR_TIMEOUT` returns `None`; raises any other status. -/
def try_receive (s : ChannelState) (recvStatus : Int) (buf : IPCBuffer)
    (copyFails : Bool) : OpResult (Option (List Nat)) :=
  if pyFalsy s.handle then
    ⟨.error (.ipcError ERROR_INVALID_ARGUMENT), s, []⟩
  else if !s.connected then
    ⟨.error (.ipcError ERROR_CONNECTION_FAILED), s, []⟩
  else if recvStatus = SUCCESS then
    if copyFails then
      ⟨.error .copyError, s, [.tryRecvCall, .bufferFree]⟩
    else
      ⟨.ok (some buf.data), s, [.tryRecvCall, .bufferFree]⟩
  else if recvStatus = ERROR_TIMEOUT then
    ⟨.ok none, s, [.tryRecvCall]⟩
  else
    ⟨.error (.ipcError recvStatus), s, [.tryRecvCall]⟩

/-- `IPCChannel.get_receiver_count`: returns `-1` without any transport
call when the handle is falsy, otherwise returns whatever
`ipc_channel_recv_count` reports.  It never raises. -/
def get_receiver_count (s : ChannelState) (transportCount : Int) :
    OpResult Int :=
  if pyFalsy s.handle then
    ⟨.ok (-1), s, []⟩
  else
    ⟨.ok transportCount, s, [.recvCountCall]⟩

/-- `IPCChannel.wait_for_receivers`: raises
`IPCError(ERROR_INVALID_ARGUMENT)` on a falsy handle (with no connectivity
requirement), then calls `ipc_channel_wait_for_recv` and maps its tri-state
result: `1` to `true`, `0` to `false`, anything else to
`IPCError(ERROR_CONNECTION_FAILED)`. -/
def wait_for_receivers (s : ChannelState) (count : Nat) (timeout_ms : Nat)
    (waitResult : Int) : OpResult Bool :=
  if pyFalsy s.handle then
    ⟨.error (.ipcError ERROR_INVALID_ARGUMENT), s, []⟩
  else if waitResult = 1 then
    ⟨.ok true, s, [.waitForRecvCall]⟩
  else if waitResult = 0 then
    ⟨.ok false, s, [.waitForRecvCall]⟩
  else
    ⟨.error (.ipcError ERROR_CONNECTION_FAILED), s, [.waitForRecvCall]⟩

/-- `IPCChannel.close`: does nothing on a falsy handle; otherwise, when
connected, calls `self.disconnect()` inside a `try` that swallows
`IPCError` (any other exception would propagate before the destroy step);
then calls `ipc_channel_destroy` and nulls the handle and the flag. -/
def close (s : ChannelState) (disconnectStatus : Int) : OpResult Unit :=
  if pyFalsy s.handle then
    ⟨.ok (), s, []⟩
  else
    let r : OpResult Unit :=
      if s.connected then disconnect s disconnectStatus else ⟨.ok (), s, []⟩
    let r2 : OpResult Unit :=
      match r.result with
      | .error (.ipcError _) => ⟨.ok (), r.state, r.events⟩
      | _ => r
    match r2.result with
    | .error e => ⟨.error e, r2.state, r2.events⟩
    | .ok _ =>
      ⟨.ok (), { r2.state with handle := none, connected := false },
        r2.events ++ [.destroyCall]⟩

/-- Property `IPCChannel.is_connected`: `self._connected and self._handle
is not None`. -/
def is_connected (s : ChannelState) : Bool :=
  s.connected && !(s.handle == none)

/-- Property `IPCChannel.is_closed`: `self._handle is None`. -/
def is_closed (s : ChannelState) : Bool :=
  s.handle == none

end IPCChannel

/-- Channel states reachable from a successful construction through
`connect`, `disconnect` and `close` (both their success and their error
outcomes leave the object in the `state` field of the result). -/
inductive ReachableOk : ChannelState → Prop where
  | init_ok (mode : Int) (r : Option Nat) (hr : pyFalsy r = false) :
      ReachableOk (IPCChannel.init mode r).state
  | connect_step (s : ChannelState) (hs : ReachableOk s) (m : Option Int)
      (st : Int) : ReachableOk (IPCChannel.connect s m st).state
  | disconnect_step (s : ChannelState) (hs : ReachableOk s) (st : Int) :
      ReachableOk (IPCChannel.disconnect s st).state
  | close_step (s : ChannelState) (hs : ReachableOk s) (st : Int) :
      ReachableOk (IPCChannel.close s st).state

/-! ### Helper lemmas (shared) -/

/-- Helper: `close` always returns normally and its resulting state has the
handle nulled and the flag cleared unless the handle was already falsy. -/
theorem close_spec (s : ChannelState) (d : Int) :
    (IPCChannel.close s d).result = .ok () ∧
    (IPCChannel.close s d).state =
      (if pyFalsy s.handle then s
        else { s with handle := none, connected := false }) := by
  by_cases h1 : pyFalsy s.handle <;>
    by_cases h2 : s.connected <;>
      by_cases h3 : d = SUCCESS <;>
        simp [IPCChannel.close, IPCChannel.disconnect, h1, h2, h3]

/-- Helper: the transport calls made by `close`. -/
theorem close_events (s : ChannelState) (d : Int) :
    (IPCChannel.close s d).events =
      (if pyFalsy s.handle then []
        else if s.connected then [.disconnectCall, .destroyCall]
        else [.destroyCall]) := by
  by_cases h1 : pyFalsy s.handle <;>
    by_cases h2 : s.connected <;>
      by_cases h3 : d = SUCCESS <;>
        simp [IPCChannel.close, IPCChannel.disconnect, h1, h2, h3]

/-- Helper: the state left by `connect`. -/
theorem connect_state (s : ChannelState) (m : Option Int) (st : Int) :
    (IPCChannel.connect s m st).state =
      (if pyFalsy s.handle then s
        else if s.connected then s
        else if st ≠ SUCCESS then s
        else { s with connected := true }) := by
  by_cases h1 : pyFalsy s.handle <;> by_cases h2 : s.connected <;>
    by_cases h3 : st = SUCCESS <;> simp [IPCChannel.connect, h1, h2, h3]

/-- Helper: the state left by `disconnect`. -/
theorem disconnect_state (s : ChannelState) (st : Int) :
    (IPCChannel.disconnect s st).state =
      (if pyFalsy s.handle || !s.connected then s
        else if st ≠ SUCCESS then s
        else { s with connected := false }) := by
  by_cases h1 : pyFalsy s.handle <;> by_cases h2 : s.connected <;>
    by_cases h3 : st = SUCCESS <;> simp [IPCChannel.disconnect, h1, h2, h3]

/-! ### Claim theorems -/

/-- C1: on every successful transport receive, in both `receive` and
`try_receive`, the transport buffer is freed exactly once on each exit path
(the trace contains exactly one `bufferFree`, whether the copy step
succeeds or raises), and the caller gets only an independent copy of the
bytes (`buf.data`, a byte list, never the buffer descriptor or its free
mechanism). -/
theorem receive_frees_buffer_exactly_once (s : ChannelState) (t : Nat)
    (buf : IPCBuffer) (cf : Bool)
    (hk : pyFalsy s.handle = false) (hc : s.connected = true) :
    ((IPCChannel.receive s t SUCCESS buf cf).events.count .bufferFree = 1 ∧
      (IPCChannel.receive s t SUCCESS buf false).result = .ok buf.data ∧
      (IPCChannel.receive s t SUCCESS buf true).result = .error .copyError) ∧
    ((IPCChannel.try_receive s SUCCESS buf cf).events.count .bufferFree = 1 ∧
      (IPCChannel.try_receive s SUCCESS buf false).result
        = .ok (some buf.data) ∧
      (IPCChannel.try_receive s SUCCESS buf true).result
        = .error .copyError) := by
  cases cf <;>
    simp [IPCChannel.receive, IPCChannel.try_receive, hk, hc] <;> decide

/-- C1 witness: instantiation at an open, connected channel with a
three-byte buffer, for both values of the copy-failure flag. -/
theorem receive_frees_buffer_exactly_once_witness :
    pyFalsy (ChannelState.mk (some 1) true 1).handle = false ∧
    (ChannelState.mk (some 1) true 1).connected = true ∧
    (IPCChannel.receive ⟨some 1, true, 1⟩ 0 SUCCESS ⟨[7, 8, 9]⟩
        true).events.count .bufferFree = 1 ∧
    (IPCChannel.receive ⟨some 1, true, 1⟩ 0 SUCCESS ⟨[7, 8, 9]⟩
        false).result = .ok [7, 8, 9] :=
  ⟨rfl, rfl,
    ((receive_frees_buffer_exactly_once ⟨some 1, true, 1⟩ 0 ⟨[7, 8, 9]⟩ true
      rfl rfl).1).1,
    ((receive_frees_buffer_exactly_once ⟨some 1, true, 1⟩ 0 ⟨[7, 8, 9]⟩ true
      rfl rfl).1).2.1⟩

/-- C2: `close` never raises, and after a first `close` every further
`close` is a strict no-op (same state, no transport calls, no exception);
the handle is destroyed at most once per `close` and not at all on later
ones.  Moreover a `close` on a live handle really does release it: it
calls the transport destroy exactly once and nulls the handle and the
flag, and when the channel is connected it first attempts the transport
disconnect (whose error, for any status `d`, is swallowed). -/
theorem close_idempotent (s : ChannelState) (d d' : Int) :
    (IPCChannel.close s d).result = .ok () ∧
    (IPCChannel.close (IPCChannel.close s d).state d').result = .ok () ∧
    (IPCChannel.close (IPCChannel.close s d).state d').state
      = (IPCChannel.close s d).state ∧
    (IPCChannel.close (IPCChannel.close s d).state d').events = [] ∧
    (IPCChannel.close s d).events.count .destroyCall ≤ 1 ∧
    (pyFalsy s.handle = false →
      (IPCChannel.close s d).state.handle = none ∧
      (IPCChannel.close s d).state.connected = false ∧
      (IPCChannel.close s d).events.count .destroyCall = 1) ∧
    (pyFalsy s.handle = false → s.connected = true →
      (IPCChannel.close s d).events = [.disconnectCall, .destroyCall]) := by
  obtain ⟨hr, hs⟩ := close_spec s d
  obtain ⟨hr2, hs2⟩ := close_spec (IPCChannel.close s d).state d'
  have hev := close_events s d
  have hev2 := close_events (IPCChannel.close s d).state d'
  by_cases h1 : pyFalsy s.handle <;>
    by_cases h2 : s.connected <;>
      simp [h1, h2, hs] at hr2 hs2 hev2 hev ⊢ <;>
        simp_all [pyFalsy] <;> decide

/-- C2 witness: a first close of the concrete open, connected channel
destroys the handle exactly once, nulls it, and attempts the disconnect
first. -/
theorem close_idempotent_witness :
    pyFalsy (ChannelState.mk (some 1) true 1).handle = false ∧
    (ChannelState.mk (some 1) true 1).connected = true ∧
    (IPCChannel.close ⟨some 1, true, 1⟩ 0).state.handle = none ∧
    (IPCChannel.close ⟨some 1, true, 1⟩ 0).events.count .destroyCall = 1 ∧
    (IPCChannel.close ⟨some 1, true, 1⟩ 0).events
      = [.disconnectCall, .destroyCall] :=
  ⟨rfl, rfl,
    ((close_idempotent ⟨some 1, true, 1⟩ 0 0).2.2.2.2.2.1 rfl).1,
    ((close_idempotent ⟨some 1, true, 1⟩ 0 0).2.2.2.2.2.1 rfl).2.2,
    (close_idempotent ⟨some 1, true, 1⟩ 0 0).2.2.2.2.2.2 rfl rfl⟩

/-- C3 counterexample: on a closed channel (null handle), `disconnect`
returns silently instead of failing, and `get_receiver_count` returns `-1`
instead of failing, so not every operation besides `close` fails with the
invalid-state error. -/
theorem closed_disconnect_recv_count_no_error :
    (IPCChannel.disconnect ⟨none, false, 1⟩ 0).result = .ok () ∧
    (IPCChannel.get_receiver_count ⟨none, false, 1⟩ 7).result = .ok (-1) :=
  ⟨rfl, rfl⟩

/-- C3 (amended): on a channel whose handle is null, `connect`, `send`,
`try_send`, `receive`, `try_receive` and `wait_for_receivers` all fail with
`IPCError(ERROR_INVALID_ARGUMENT)` ("Channel is closed"), while
`disconnect` returns silently as a no-op and `get_receiver_count` returns
`-1` without raising. -/
theorem closed_channel_ops (s : ChannelState) (h : pyFalsy s.handle = true)
    (m : Option Int) (st : Int) (data : PyData) (t c : Nat)
    (buf : IPCBuffer) (cf : Bool) (tc : Int) :
    (IPCChannel.connect s m st).result
      = .error (.ipcError ERROR_INVALID_ARGUMENT) ∧
    (IPCChannel.send s data t st).result
      = .error (.ipcError ERROR_INVALID_ARGUMENT) ∧
    (IPCChannel.try_send s data t st).result
      = .error (.ipcError ERROR_INVALID_ARGUMENT) ∧
    (IPCChannel.receive s t st buf cf).result
      = .error (.ipcError ERROR_INVALID_ARGUMENT) ∧
    (IPCChannel.try_receive s st buf cf).result
      = .error (.ipcError ERROR_INVALID_ARGUMENT) ∧
    (IPCChannel.wait_for_receivers s c t st).result
      = .error (.ipcError ERROR_INVALID_ARGUMENT) ∧
    (IPCChannel.disconnect s st).result = .ok () ∧
    (IPCChannel.get_receiver_count s tc).result = .ok (-1) := by
  simp [IPCChannel.connect, IPCChannel.send, IPCChannel.try_send,
    IPCChannel.receive, IPCChannel.try_receive,
    IPCChannel.wait_for_receivers, IPCChannel.disconnect,
    IPCChannel.get_receiver_count, h]

/-- C3 witness: instantiation at the concrete closed state. -/
theorem closed_channel_ops_witness :
    pyFalsy (ChannelState.mk none false 1).handle = true ∧
    (IPCChannel.connect ⟨none, false, 1⟩ none 0).result
      = .error (.ipcError ERROR_INVALID_ARGUMENT) ∧
    (IPCChannel.disconnect ⟨none, false, 1⟩ 0).result = .ok () :=
  ⟨rfl,
    (closed_channel_ops ⟨none, false, 1⟩ rfl none 0 (.bytes [1]) 0 0 ⟨[]⟩
      false 7).1,
    (closed_channel_ops ⟨none, false, 1⟩ rfl none 0 (.bytes [1]) 0 0 ⟨[]⟩
      false 7).2.2.2.2.2.2.1⟩

/-- C4 counterexample: when the transport `disconnect` returns an error
status during an explicit `disconnect()`, the error is raised but the
`connected` flag stays `true` (the raise occurs before the assignment that
would clear it), so the state does not transition to disconnected. -/
theorem disconnect_error_keeps_connected :
    (IPCChannel.disconnect ⟨some 1, true, 1⟩ ERROR_CONNECTION_FAILED).result
      = .error (.ipcError ERROR_CONNECTION_FAILED) ∧
    (IPCChannel.disconnect ⟨some 1, true, 1⟩
        ERROR_CONNECTION_FAILED).state.connected = true :=
  ⟨rfl, rfl⟩

/-- C4 (amended): when the transport `disconnect` returns a non-success
status during an explicit `disconnect()`, the error surfaces to the caller
and the channel state is left entirely unchanged — in particular the
`connected` flag remains `true`. -/
theorem disconnect_error_state_unchanged (s : ChannelState) (st : Int)
    (hk : pyFalsy s.handle = false) (hc : s.connected = true)
    (hst : st ≠ SUCCESS) :
    (IPCChannel.disconnect s st).result = .error (.ipcError st) ∧
    (IPCChannel.disconnect s st).state = s := by
  simp [IPCChannel.disconnect, hk, hc, hst]

/-- C4 witness: instantiation at an open, connected channel with a failing
transport disconnect. -/
theorem disconnect_error_state_unchanged_witness :
    pyFalsy (ChannelState.mk (some 1) true 1).handle = false ∧
    (ChannelState.mk (some 1) true 1).connected = true ∧
    ERROR_SEND_FAILED ≠ SUCCESS ∧
    (IPCChannel.disconnect ⟨some 1, true, 1⟩ ERROR_SEND_FAILED).state
      = ⟨some 1, true, 1⟩ :=
  ⟨rfl, rfl, by decide,
    (disconnect_error_state_unchanged ⟨some 1, true, 1⟩ ERROR_SEND_FAILED
      rfl rfl (by decide)).2⟩

/-- C5 counterexample: when the transport create call returns a null
handle, the constructor raises, but the object it leaves behind has
`handle = None` together with `connected = True`, violating the invariant
`handle == null implies connected == false`. -/
theorem failed_init_violates_invariant :
    pyFalsy (IPCChannel.init 1 none).state.handle = true ∧
    (IPCChannel.init 1 none).state.connected = true ∧
    (IPCChannel.init 1 none).result
      = .error (.ipcError ERROR_CONNECTION_FAILED) :=
  ⟨rfl, rfl, rfl⟩

/-- C5 (amended): `handle == null implies connected == false` holds for
every state reachable from a successful construction through `connect`,
`disconnect` and `close` (the sole exception being the transient object of
a failed construction, where the flag stays `true` with a null handle). -/
theorem reachable_null_handle_not_connected (s : ChannelState)
    (hs : ReachableOk s) (hn : pyFalsy s.handle = true) :
    s.connected = false := by
  induction hs with
  | init_ok mode r hr =>
    simp [IPCChannel.init, hr] at hn
  | connect_step s hs m st ih =>
    rw [connect_state] at hn ⊢
    split_ifs at hn ⊢ with h1 h2 h3
    · exact ih hn
    · exact ih hn
    · exact ih hn
    · exact absurd (by simpa using hn) h1
  | disconnect_step s hs st ih =>
    rw [disconnect_state] at hn ⊢
    split_ifs at hn ⊢ with h1 h2
    · exact ih hn
    · exact ih hn
    · rfl
  | close_step s hs st ih =>
    rw [(close_spec s st).2] at hn ⊢
    split_ifs at hn ⊢ with h1
    · exact ih hn
    · rfl

/-- C5 witness: the invariant applied to the concrete state reached by
constructing successfully and then closing. -/
theorem reachable_null_handle_not_connected_witness :
    pyFalsy (IPCChannel.close (IPCChannel.init 1 (some 5)).state 0).state.handle
      = true ∧
    (IPCChannel.close (IPCChannel.init 1 (some 5)).state 0).state.connected
      = false :=
  ⟨rfl,
    reachable_null_handle_not_connected _
      (ReachableOk.close_step _ (ReachableOk.init_ok 1 (some 5) rfl) 0) rfl⟩

/-- C6: a transport timeout is a hard error from `send` and `receive`
(both raise `IPCError` carrying `ERROR_TIMEOUT`) but a soft result from the
try/wait operations: `try_send` returns `false`, `try_receive` returns
`none`, and `wait_for_receivers` returns `false` on the tri-state timeout
result `0`; in those three operations every other non-success transport
result raises. -/
theorem timeout_policy (s : ChannelState) (bs : List Nat) (t c : Nat)
    (buf : IPCBuffer)
    (hk : pyFalsy s.handle = false) (hc : s.connected = true) :
    (IPCChannel.send s (.bytes bs) t ERROR_TIMEOUT).result
      = .error (.ipcError ERROR_TIMEOUT) ∧
    (IPCChannel.receive s t ERROR_TIMEOUT buf false).result
      = .error (.ipcError ERROR_TIMEOUT) ∧
    (IPCChannel.try_send s (.bytes bs) t ERROR_TIMEOUT).result = .ok false ∧
    (IPCChannel.try_receive s ERROR_TIMEOUT buf false).result = .ok none ∧
    (IPCChannel.wait_for_receivers s c t 0).result = .ok false ∧
    (∀ st : Int, st ≠ SUCCESS → st ≠ ERROR_TIMEOUT →
      (IPCChannel.try_send s (.bytes bs) t st).result
        = .error (.ipcError st)) ∧
    (∀ st : Int, st ≠ SUCCESS → st ≠ ERROR_TIMEOUT →
      (IPCChannel.try_receive s st buf false).result
        = .error (.ipcError st)) ∧
    (∀ r : Int, r ≠ 1 → r ≠ 0 →
      (IPCChannel.wait_for_receivers s c t r).result
        = .error (.ipcError ERROR_CONNECTION_FAILED)) := by
  refine ⟨?_, ?_, ?_, ?_, ?_, fun st h1 h2 => ?_, fun st h1 h2 => ?_,
      fun r h1 h2 => ?_⟩ <;>
    simp_all [IPCChannel.send, IPCChannel.receive, IPCChannel.try_send,
      IPCChannel.try_receive, IPCChannel.wait_for_receivers,
      IPCChannel._get_buffer_pointer, SUCCESS, ERROR_TIMEOUT]

/-- C6 witness: instantiation at an open, connected channel, including the
other-error cases at the concrete status `ERROR_MEMORY` and tri-state
result `-2`. -/
theorem timeout_policy_witness :
    pyFalsy (ChannelState.mk (some 1) true 1).handle = false ∧
    (ChannelState.mk (some 1) true 1).connected = true ∧
    (IPCChannel.try_send ⟨some 1, true, 1⟩ (.bytes [1, 2]) 0
        ERROR_TIMEOUT).result = .ok false ∧
    (IPCChannel.try_receive ⟨some 1, true, 1⟩ ERROR_TIMEOUT ⟨[]⟩
        false).result = .ok none ∧
    (IPCChannel.try_send ⟨some 1, true, 1⟩ (.bytes [1, 2]) 0
        ERROR_MEMORY).result = .error (.ipcError ERROR_MEMORY) :=
  ⟨rfl, rfl,
    (timeout_policy ⟨some 1, true, 1⟩ [1, 2] 0 0 ⟨[]⟩ rfl rfl).2.2.1,
    (timeout_policy ⟨some 1, true, 1⟩ [1, 2] 0 0 ⟨[]⟩ rfl rfl).2.2.2.1,
    (timeout_policy ⟨some 1, true, 1⟩ [1, 2] 0 0 ⟨[]⟩ rfl
      rfl).2.2.2.2.2.1 ERROR_MEMORY (by decide) (by decide)⟩

/-- C7: `wait_for_receivers` requires only a non-null handle (no
connectivity requirement: the theorem holds for any value of the
`connected` flag), raises `IPCError(ERROR_INVALID_ARGUMENT)` on a null
handle, and maps the transport tri-state: `1` to `true`, `0` to `false`,
anything else to `IPCError(ERROR_CONNECTION_FAILED)`. -/
theorem wait_for_receivers_tri_state (s : ChannelState) (c t : Nat)
    (r : Int) (hk : pyFalsy s.handle = false) :
    (IPCChannel.wait_for_receivers s c t 1).result = .ok true ∧
    (IPCChannel.wait_for_receivers s c t 0).result = .ok false ∧
    (r ≠ 1 → r ≠ 0 →
      (IPCChannel.wait_for_receivers s c t r).result
        = .error (.ipcError ERROR_CONNECTION_FAILED)) ∧
    (∀ s' : ChannelState, pyFalsy s'.handle = true →
      (IPCChannel.wait_for_receivers s' c t r).result
        = .error (.ipcError ERROR_INVALID_ARGUMENT)) := by
  refine ⟨?_, ?_, fun h1 h2 => ?_, fun s' h => ?_⟩ <;>
    simp_all [IPCChannel.wait_for_receivers]

/-- C7 witness: instantiation at an open but disconnected channel,
demonstrating that no connectivity is required, plus the null-handle case. -/
theorem wait_for_receivers_tri_state_witness :
    pyFalsy (ChannelState.mk (some 1) false 1).handle = false ∧
    (ChannelState.mk (some 1) false 1).connected = false ∧
    (IPCChannel.wait_for_receivers ⟨some 1, false, 1⟩ 2 100 1).result
      = .ok true ∧
    (IPCChannel.wait_for_receivers ⟨some 1, false, 1⟩ 2 100 0).result
      = .ok false ∧
    (IPCChannel.wait_for_receivers ⟨some 1, false, 1⟩ 2 100 (-2)).result
      = .error (.ipcError ERROR_CONNECTION_FAILED) ∧
    (IPCChannel.wait_for_receivers ⟨none, false, 1⟩ 2 100 (-2)).result
      = .error (.ipcError ERROR_INVALID_ARGUMENT) :=
  ⟨rfl, rfl,
    (wait_for_receivers_tri_state ⟨some 1, false, 1⟩ 2 100 (-2) rfl).1,
    (wait_for_receivers_tri_state ⟨some 1, false, 1⟩ 2 100 (-2) rfl).2.1,
    (wait_for_receivers_tri_state ⟨some 1, false, 1⟩ 2 100 (-2) rfl).2.2.1
      (by decide) (by decide),
    (wait_for_receivers_tri_state ⟨some 1, false, 1⟩ 2 100 (-2) rfl).2.2.2
      ⟨none, false, 1⟩ rfl⟩

/-- C8: construction fails with `IPCError(ERROR_CONNECTION_FAILED)`
whenever the transport create call returns a null handle; on success the
channel starts with `connected = true`, so an immediate `connect()` returns
`None` without any transport call and leaves the state unchanged. -/
theorem init_connected_equivalent (m : Int) (cr : Option Nat)
    (hfal : pyFalsy cr = true) (h : Nat) (hh : pyFalsy (some h) = false)
    (mo : Option Int) (st : Int) :
    (IPCChannel.init m cr).result
      = .error (.ipcError ERROR_CONNECTION_FAILED) ∧
    (IPCChannel.init m (some h)).result = .ok () ∧
    (IPCChannel.init m (some h)).state.connected = true ∧
    (IPCChannel.connect (IPCChannel.init m (some h)).state mo st).result
      = .ok () ∧
    (IPCChannel.connect (IPCChannel.init m (some h)).state mo st).state
      = (IPCChannel.init m (some h)).state ∧
    (IPCChannel.connect (IPCChannel.init m (some h)).state mo st).events
      = [] := by
  refine ⟨?_, ?_, ?_, ?_, ?_, ?_⟩ <;>
    simp [IPCChannel.init, IPCChannel.connect, hfal, hh]

/-- C8 witness: instantiation at a null create result and at the concrete
handle `5`. -/
theorem init_connected_equivalent_witness :
    pyFalsy (none : Option Nat) = true ∧
    pyFalsy (some 5) = false ∧
    (IPCChannel.init 1 none).result
      = .error (.ipcError ERROR_CONNECTION_FAILED) ∧
    (IPCChannel.connect (IPCChannel.init 1 (some 5)).state none 0).events
      = [] :=
  ⟨rfl, rfl,
    (init_connected_equivalent 1 none rfl 5 rfl none 0).1,
    (init_connected_equivalent 1 none rfl 5 rfl none 0).2.2.2.2.2⟩

/-- C9: for every channel state, `is_connected` is `true` exactly when the
handle is not `None` and the `connected` flag is set, and `is_closed` is
`true` exactly when the handle is `None`. -/
theorem observable_properties (s : ChannelState) :
    (IPCChannel.is_connected s = true ↔
      (s.handle ≠ none ∧ s.connected = true)) ∧
    (IPCChannel.is_closed s = true ↔ s.handle = none) := by
  constructor <;>
    simp [IPCChannel.is_connected, IPCChannel.is_closed] <;> tauto

/-- C10: on an open, connected channel, `send` and `try_send` with data
that is neither `bytes` nor `bytearray` raise `TypeError` (not `IPCError`)
with no transport call made and the state unchanged; the type check comes
after the handle and connected checks, since on a null handle the same call
raises `IPCError(ERROR_INVALID_ARGUMENT)` and on a disconnected channel it
raises `IPCError(ERROR_CONNECTION_FAILED)` instead. -/
theorem send_type_check (s : ChannelState) (t : Nat) (st : Int)
    (hk : pyFalsy s.handle = false) (hc : s.connected = true) :
    (IPCChannel.send s .other t st).result = .error .typeError ∧
    (IPCChannel.send s .other t st).state = s ∧
    (IPCChannel.send s .other t st).events = [] ∧
    (IPCChannel.try_send s .other t st).result = .error .typeError ∧
    (IPCChannel.try_send s .other t st).state = s ∧
    (IPCChannel.try_send s .other t st).events = [] ∧
    (∀ s' : ChannelState, pyFalsy s'.handle = true →
      (IPCChannel.send s' .other t st).result
        = .error (.ipcError ERROR_INVALID_ARGUMENT)) ∧
    (∀ s' : ChannelState, pyFalsy s'.handle = false →
      s'.connected = false →
      (IPCChannel.send s' .other t st).result
        = .error (.ipcError ERROR_CONNECTION_FAILED)) := by
  refine ⟨?_, ?_, ?_, ?_, ?_, ?_, fun s' h => ?_, fun s' h1 h2 => ?_⟩ <;>
    simp_all [IPCChannel.send, IPCChannel.try_send]

/-- C10 witness: instantiation at the concrete open-connected, closed and
disconnected states. -/
theorem send_type_check_witness :
    pyFalsy (ChannelState.mk (some 1) true 1).handle = false ∧
    (ChannelState.mk (some 1) true 1).connected = true ∧
    (IPCChannel.send ⟨some 1, true, 1⟩ .other 0 0).result
      = .error .typeError ∧
    (IPCChannel.send ⟨some 1, true, 1⟩ .other 0 0).events = [] ∧
    (IPCChannel.send ⟨none, false, 1⟩ .other 0 0).result
      = .error (.ipcError ERROR_INVALID_ARGUMENT) ∧
    (IPCChannel.send ⟨some 1, false, 1⟩ .other 0 0).result
      = .error (.ipcError ERROR_CONNECTION_FAILED) :=
  ⟨rfl, rfl,
    (send_type_check ⟨some 1, true, 1⟩ 0 0 rfl rfl).1,
    (send_type_check ⟨some 1, true, 1⟩ 0 0 rfl rfl).2.2.1,
    (send_type_check ⟨some 1, true, 1⟩ 0 0 rfl rfl).2.2.2.2.2.2.1
      ⟨none, false, 1⟩ rfl,
    (send_type_check ⟨some 1, true, 1⟩ 0 0 rfl rfl).2.2.2.2.2.2.2
      ⟨some 1, false, 1⟩ rfl rfl⟩

end LibIPC
